import Mathlib

/-!
Shallow embedding of the message / conversation / presence core of a
MERN chat backend: the Mongoose message model (status state machine,
reactions, unread count, bulk read), the conversation model
(canonical participant ordering, find-or-create, mute/archive toggles)
and the in-memory socket presence map from the architecture guide.
Timestamps are modelled as natural numbers passed in explicitly
(each JS call to new Date() becomes a now parameter).
-/

namespace Chat

/-- Message delivery status: the enum MESSAGE_STATUSES with values
sent, delivered, read. -/
inductive MsgStatus
  | sent
  | delivered
  | read
deriving DecidableEq, Repr

/-- One entry of the reactions array: a userId / emoji pair. -/
structure Reaction where
  userId : String
  emoji : String
deriving DecidableEq, Repr

/-- The message document of the message schema. ObjectId references are
modelled as strings, Date fields as Option Nat (null becomes none). -/
structure Message where
  senderId : String
  receiverId : String
  conversationId : String
  content : String
  messageType : String
  imageUrl : Option String
  fileUrl : Option String
  status : MsgStatus
  deliveredAt : Option Nat
  readAt : Option Nat
  isDeleted : Bool
  isEdited : Bool
  editedAt : Option Nat
  replyTo : Option String
  reactions : List Reaction
deriving DecidableEq, Repr

/-- The pre-save hook of the message schema: when the status field was
modified and now equals delivered, stamp deliveredAt; when it was modified
and now equals read, stamp readAt. The isModified flag of Mongoose is the
explicit statusModified argument. -/
def msgPreSave (m : Message) (statusModified : Bool) (now : Nat) : Message :=
  let m1 :=
    if statusModified = true ∧ m.status = MsgStatus.delivered then
      { m with deliveredAt := some now }
    else m
  if statusModified = true ∧ m1.status = MsgStatus.read then
    { m1 with readAt := some now }
  else m1

/-- Method markAsDelivered: only when status is sent, set status to
delivered and deliveredAt to now, then save (which runs the pre-save
hook with the same clock); otherwise resolve without saving. -/
def markAsDelivered (m : Message) (now : Nat) : Message :=
  if m.status = MsgStatus.sent then
    msgPreSave
      { m with status := MsgStatus.delivered, deliveredAt := some now }
      true now
  else m

/-- Method markAsRead: when status is not read, set status to read and
readAt to now, then save (pre-save hook runs with the same clock);
otherwise resolve without saving. -/
def markAsRead (m : Message) (now : Nat) : Message :=
  if m.status ≠ MsgStatus.read then
    msgPreSave
      { m with status := MsgStatus.read, readAt := some now }
      true now
  else m

/-- Method addReaction, exactly as written in the source: find an existing
reaction with the same userId and emoji; when none is found, return without
saving; otherwise push the pair and save. The save does not modify status,
so the pre-save hook changes nothing on this path. -/
def addReaction (m : Message) (userId emoji : String) : Message :=
  let existingReaction :=
    m.reactions.find? (fun r => r.userId == userId && r.emoji == emoji)
  if existingReaction.isNone then
    m
  else
    { m with reactions := m.reactions ++ [⟨userId, emoji⟩] }

/-- Method removeReaction: keep only the reactions that do not match the
userId / emoji pair, then save. -/
def removeReaction (m : Message) (userId emoji : String) : Message :=
  { m with reactions :=
      m.reactions.filter (fun r => !(r.userId == userId && r.emoji == emoji)) }

/-- Static getUnreadCount: countDocuments over messages whose receiverId
is the user, whose status is not read, and whose isDeleted is false.
The message collection is modelled as a list. -/
def getUnreadCount (msgs : List Message) (userId : String) : Nat :=
  (msgs.filter (fun m =>
    m.receiverId == userId
      && !(m.status == MsgStatus.read)
      && m.isDeleted == false)).length

/-- The per-document effect of the updateMany in markConversationAsRead:
a message matching the filter (conversationId, receiverId, status not
read) gets status read and readAt now; any other message is untouched.
updateMany bypasses the document pre-save hook. -/
def bulkReadOne (m : Message) (conversationId userId : String) (now : Nat) :
    Message :=
  if m.conversationId = conversationId ∧ m.receiverId = userId
      ∧ m.status ≠ MsgStatus.read then
    { m with status := MsgStatus.read, readAt := some now }
  else m

/-- Static markConversationAsRead: updateMany applied over the collection. -/
def markConversationAsRead (msgs : List Message)
    (conversationId userId : String) (now : Nat) : List Message :=
  msgs.map (fun m => bulkReadOne m conversationId userId now)

/-- Numeric rank of a status in the state order sent, delivered, read. -/
def statusRank : MsgStatus → Nat
  | MsgStatus.sent => 0
  | MsgStatus.delivered => 1
  | MsgStatus.read => 2

/-- A never-delivered, never-read text message used as a concrete input. -/
def msgSent : Message :=
  { senderId := "alice", receiverId := "bob", conversationId := "c1"
    content := "hi", messageType := "text", imageUrl := none
    fileUrl := none, status := MsgStatus.sent, deliveredAt := none
    readAt := none, isDeleted := false, isEdited := false
    editedAt := none, replyTo := none, reactions := [] }

/-- A message already marked read, used as a concrete input. -/
def msgRead : Message :=
  { msgSent with status := MsgStatus.read, readAt := some 1 }

/-- A message on which alice already reacted with x once. -/
def msgReacted : Message :=
  { msgSent with reactions := [⟨"alice", "x"⟩] }

/-- The conversation document of the conversation schema, with the
metadata subdocument flattened into messageCount and createdBy.
ObjectId values are strings, Date values are Nat. -/
structure Conversation where
  participants : List String
  lastMessage : Option String
  lastMessageTime : Nat
  name : Option String
  avatar : Option String
  type : String
  mutedBy : List String
  archivedBy : List String
  messageCount : Nat
  createdBy : Option String
deriving DecidableEq, Repr

/-- Sorting of a two-element participant array with the comparator
a.localeCompare(b); for hex ObjectId strings localeCompare agrees with
ordinary lexicographic string order, which is how it is modelled. -/
def sortPair (a b : String) : List String :=
  if a ≤ b then [a, b] else [b, a]

/-- The pre-save hook of the conversation schema: for a direct
conversation with exactly two participants, sort the participants with
the localeCompare comparator. -/
def conversationPreSave (c : Conversation) : Conversation :=
  if c.type = "direct" ∧ c.participants.length = 2 then
    { c with participants :=
        match c.participants with
        | [a, b] => sortPair a b
        | l => l }
  else c

/-- The filter of the findOne inside findOrCreateConversation: the
document is a direct conversation and its participants array contains
every element of the queried pair (the all-elements operator of the
document store). -/
def matchesPair (ps : List String) (c : Conversation) : Bool :=
  c.type == "direct" && ps.all (fun p => c.participants.contains p)

/-- findOne over the conversation collection, modelled as the first
matching document of the list. -/
def findOneConversation (store : List Conversation) (ps : List String) :
    Option Conversation :=
  store.find? (matchesPair ps)

/-- The document built by the create call inside findOrCreateConversation:
participants as passed, type direct, createdBy the first user id, every
other field at its schema default (the lastMessageTime default clock is
taken as 0). -/
def mkConversation (ps : List String) (creator : String) : Conversation :=
  { participants := ps, lastMessage := none, lastMessageTime := 0
    name := none, avatar := none, type := "direct", mutedBy := []
    archivedBy := [], messageCount := 0, createdBy := some creator }

/-- Static findOrCreateConversation: canonically order the two user ids,
look the pair up, and create the conversation (through save and hence the
pre-save hook) only when the lookup found nothing. Returns the resolved
conversation together with the collection after the call. -/
def findOrCreateConversation (store : List Conversation)
    (userId1 userId2 : String) : Conversation × List Conversation :=
  let participants := sortPair userId1 userId2
  match findOneConversation store participants with
  | some conversation => (conversation, store)
  | none =>
    let c := conversationPreSave (mkConversation participants userId1)
    (c, store ++ [c])

/-- Error raised by the document store when the unique index
unique_participants_direct_chat rejects a second document with the same
participants array. -/
inductive ResolveError
  | ConflictError
deriving DecidableEq, Repr

/-- Create against the store under the unique participants index: the
insert is rejected with ConflictError when a document with the same
participants array already exists, and appends the saved document
otherwise. -/
def createUnique (store : List Conversation) (ps : List String)
    (creator : String) : Except ResolveError (Conversation × List Conversation) :=
  if store.any (fun c => c.participants == ps) then
    Except.error ResolveError.ConflictError
  else
    let c := conversationPreSave (mkConversation ps creator)
    Except.ok (c, store ++ [c])

/-- findOrCreateConversation with the duplicate-creation race made
explicit: the collection snapshot at create time may differ from the
snapshot the findOne ran against, because a concurrent first-contact
insert can land in between. The catch block of the source only logs and
rethrows, so a create failure propagates to the caller unchanged; there
is no retry of the lookup. -/
def findOrCreateConversationRacy (storeAtFind storeAtCreate : List Conversation)
    (userId1 userId2 : String) :
    Except ResolveError (Conversation × List Conversation) :=
  let participants := sortPair userId1 userId2
  match findOneConversation storeAtFind participants with
  | some conversation => Except.ok (conversation, storeAtCreate)
  | none => createUnique storeAtCreate participants userId1

/-- Method toggleMute: indexOf finds the first occurrence of the user in
mutedBy; when present (index above minus one) splice removes that single
occurrence, otherwise push appends the user; then save, which runs the
conversation pre-save hook. -/
def toggleMute (c : Conversation) (userId : String) : Conversation :=
  conversationPreSave
    (if c.mutedBy.contains userId then
      { c with mutedBy := c.mutedBy.erase userId }
    else
      { c with mutedBy := c.mutedBy ++ [userId] })

/-- Method toggleArchive: same shape as toggleMute over archivedBy. -/
def toggleArchive (c : Conversation) (userId : String) : Conversation :=
  conversationPreSave
    (if c.archivedBy.contains userId then
      { c with archivedBy := c.archivedBy.erase userId }
    else
      { c with archivedBy := c.archivedBy ++ [userId] })

/-- Method isMutedFor: membership of the user in mutedBy. -/
def isMutedFor (c : Conversation) (userId : String) : Bool :=
  c.mutedBy.any (fun id => id == userId)

/-- Method isArchivedFor: membership of the user in archivedBy. -/
def isArchivedFor (c : Conversation) (userId : String) : Bool :=
  c.archivedBy.any (fun id => id == userId)

/-- Modelled from the spec: the request-level toggleMute operation
(its controller is not among the source files; only the document method
is). Per the spec it performs the set-membership flip, which is the
toggleMute method of the source, and returns the new boolean state,
which is the membership of the user in the updated document. -/
def toggleMuteOp (c : Conversation) (userId : String) : Conversation × Bool :=
  let c2 := toggleMute c userId
  (c2, isMutedFor c2 userId)

/-- Modelled from the spec: the request-level toggleArchive operation,
analogous to toggleMuteOp. -/
def toggleArchiveOp (c : Conversation) (userId : String) : Conversation × Bool :=
  let c2 := toggleArchive c userId
  (c2, isArchivedFor c2 userId)

/-- A direct conversation between a and b used as a concrete input. -/
def convAB : Conversation := mkConversation ["a", "b"] "b"

/-- Presence events emitted by the socket handler of the architecture
guide: user online and user offline broadcasts. -/
inductive PresenceEvent
  | online (userId : String) (timestamp : Nat)
  | offline (userId : String) (lastSeen : Nat)
deriving DecidableEq, Repr

/-- Map.set of the activeUsers map: replace the value of an existing key
in place, or append the new binding. -/
def mapSet : List (String × String) → String → String → List (String × String)
  | [], k, v => [(k, v)]
  | (k0, v0) :: rest, k, v =>
    if k0 == k then (k0, v) :: rest else (k0, v0) :: mapSet rest k v

/-- Map.delete of the activeUsers map: drop the binding of the key. -/
def mapDelete : List (String × String) → String → List (String × String)
  | [], _ => []
  | (k0, v0) :: rest, k =>
    if k0 == k then rest else (k0, v0) :: mapDelete rest k

/-- Map.get of the activeUsers map. -/
def mapGet : List (String × String) → String → Option String
  | [], _ => none
  | (k0, v0) :: rest, k => if k0 == k then some v0 else mapGet rest k

/-- State of the socket handler: the module-level activeUsers map from
userId to socketId, together with the stream of presence broadcasts. -/
structure SocketState where
  activeUsers : List (String × String)
  events : List PresenceEvent
deriving DecidableEq, Repr

/-- The connection handler of setupSocketHandlers: when the handshake
carries a truthy userId (modelled as a non-empty string), store the
socket id under the user id and broadcast the online event. -/
def onConnect (st : SocketState) (userId socketId : String) (now : Nat) :
    SocketState :=
  if userId ≠ "" then
    { activeUsers := mapSet st.activeUsers userId socketId
      events := st.events ++ [PresenceEvent.online userId now] }
  else st

/-- The disconnect handler: delete the connection owner from the map,
whichever of their sockets disconnected, and broadcast the offline event
with lastSeen stamped. -/
def onDisconnect (st : SocketState) (userId : String) (now : Nat) :
    SocketState :=
  { activeUsers := mapDelete st.activeUsers userId
    events := st.events ++ [PresenceEvent.offline userId now] }

/-- Online status of a user as derived from the registry: present in the
activeUsers map. -/
def isOnlineUser (st : SocketState) (userId : String) : Bool :=
  (mapGet st.activeUsers userId).isSome

/-! Theorems for the claims, in claim order. -/

/-- C1: the guard of addReaction is inverted with respect to its own
comments. Evaluated at concrete inputs: on a message holding no
(alice, x) reaction the method appends nothing and leaves the message
unchanged, while on a message that already holds exactly that pair it
appends a second copy of the pair. The claim states the reverse
behavior (append when absent, no-op when present). -/
theorem C1_inverted_guard_eval :
    addReaction msgSent "alice" "x" = msgSent ∧
    (addReaction msgReacted "alice" "x").reactions =
      [⟨"alice", "x"⟩, ⟨"alice", "x"⟩] :=
  ⟨rfl, rfl⟩

/-- C8: addReaction is not idempotent for a repeated identical pair.
Evaluated at a concrete input: on a message whose reactions already hold
(alice, x), the first call grows the list to two entries and the second
call grows it again to three, so the length does change after the
second call. -/
theorem C8_duplicate_growth_eval :
    (addReaction msgReacted "alice" "x").reactions.length = 2 ∧
    (addReaction (addReaction msgReacted "alice" "x") "alice" "x").reactions.length = 3 :=
  ⟨rfl, rfl⟩

/-- C2: markAsDelivered is a no-op (the whole document unchanged,
status and deliveredAt included) whenever the status is not sent, hence
in particular after markAsRead; markAsRead always lands on read, so
markAsDelivered after markAsRead leaves read; both single-message
transitions and the bulk per-message update only move the status
forward in the order sent, delivered, read; and whenever markAsDelivered
changes anything at all, the status was sent and becomes delivered with
deliveredAt stamped. -/
theorem C2_status_monotone (m : Message) (cid uid : String) (t t1 t2 : Nat) :
    (m.status ≠ MsgStatus.sent → markAsDelivered m t = m) ∧
    (markAsDelivered (markAsRead m t1) t2).status = MsgStatus.read ∧
    statusRank m.status ≤ statusRank (markAsDelivered m t).status ∧
    statusRank m.status ≤ statusRank (markAsRead m t).status ∧
    statusRank m.status ≤ statusRank (bulkReadOne m cid uid t).status ∧
    (markAsDelivered m t ≠ m →
      m.status = MsgStatus.sent ∧
      (markAsDelivered m t).status = MsgStatus.delivered ∧
      (markAsDelivered m t).deliveredAt = some t) := by
  cases hm : m.status <;>
    by_cases h1 : m.conversationId = cid <;>
      by_cases h2 : m.receiverId = uid <;>
        simp [markAsDelivered, markAsRead, msgPreSave, statusRank, bulkReadOne,
          hm, h1, h2]

/-- C2 witness: the delivered-or-read no-op at a concrete read message. -/
theorem C2_status_monotone_witness :
    msgRead.status ≠ MsgStatus.sent ∧ markAsDelivered msgRead 5 = msgRead :=
  ⟨by decide, (C2_status_monotone msgRead "c1" "bob" 5 1 2).1 (by decide)⟩

/-- C10: markAsRead on a still-sent message with no delivery timestamp
jumps straight to read, stamps readAt, leaves deliveredAt at null, and
changes no other field of the document. -/
theorem C10_read_without_delivered (m : Message) (t : Nat)
    (hs : m.status = MsgStatus.sent) (hd : m.deliveredAt = none) :
    (markAsRead m t).status = MsgStatus.read ∧
    (markAsRead m t).readAt = some t ∧
    (markAsRead m t).deliveredAt = none ∧
    (markAsRead m t).senderId = m.senderId ∧
    (markAsRead m t).receiverId = m.receiverId ∧
    (markAsRead m t).conversationId = m.conversationId ∧
    (markAsRead m t).content = m.content ∧
    (markAsRead m t).messageType = m.messageType ∧
    (markAsRead m t).imageUrl = m.imageUrl ∧
    (markAsRead m t).fileUrl = m.fileUrl ∧
    (markAsRead m t).isDeleted = m.isDeleted ∧
    (markAsRead m t).isEdited = m.isEdited ∧
    (markAsRead m t).editedAt = m.editedAt ∧
    (markAsRead m t).replyTo = m.replyTo ∧
    (markAsRead m t).reactions = m.reactions := by
  simp [markAsRead, msgPreSave, hs, hd]

/-- C10 witness: the direct sent-to-read jump at a concrete message. -/
theorem C10_read_without_delivered_witness :
    msgSent.status = MsgStatus.sent ∧ msgSent.deliveredAt = none ∧
    (markAsRead msgSent 3).status = MsgStatus.read ∧
    (markAsRead msgSent 3).deliveredAt = none :=
  ⟨rfl, rfl, (C10_read_without_delivered msgSent 3 rfl rfl).1,
    (C10_read_without_delivered msgSent 3 rfl rfl).2.2.1⟩

/-- Helper: the per-message bulk update is idempotent, for any pair of
clock values. -/
theorem bulkReadOne_twice (m : Message) (cid uid : String) (t1 t2 : Nat) :
    bulkReadOne (bulkReadOne m cid uid t1) cid uid t2 = bulkReadOne m cid uid t1 := by
  by_cases h : m.conversationId = cid ∧ m.receiverId = uid ∧ m.status ≠ MsgStatus.read <;>
    simp [bulkReadOne, h]

/-- C6: markAsRead sets status read and readAt now on any not-yet-read
message, and a second markAsRead is a no-op that keeps readAt at the
value the first call stamped; the bulk markConversationAsRead gives
status read and readAt now to every message of the conversation
addressed to the reader that is not already read, leaves already-read
messages untouched, and running the bulk update a second time changes
nothing. -/
theorem C6_mark_read_idempotent (msgs : List Message) (m : Message)
    (cid uid : String) (t1 t2 : Nat) :
    (m.status ≠ MsgStatus.read →
      (markAsRead m t1).status = MsgStatus.read ∧
        (markAsRead m t1).readAt = some t1) ∧
    markAsRead (markAsRead m t1) t2 = markAsRead m t1 ∧
    (m.conversationId = cid → m.receiverId = uid → m.status ≠ MsgStatus.read →
      (bulkReadOne m cid uid t1).status = MsgStatus.read ∧
        (bulkReadOne m cid uid t1).readAt = some t1) ∧
    (m.status = MsgStatus.read → bulkReadOne m cid uid t1 = m) ∧
    markConversationAsRead (markConversationAsRead msgs cid uid t1) cid uid t2 =
      markConversationAsRead msgs cid uid t1 := by
  refine ⟨?_, ?_, ?_, ?_, ?_⟩
  · intro h
    simp [markAsRead, msgPreSave, h]
  · cases hm : m.status <;> simp [markAsRead, msgPreSave, hm]
  · intro h1 h2 h3
    simp [bulkReadOne, h1, h2, h3]
  · intro h
    simp [bulkReadOne, h]
  · induction msgs with
    | nil => rfl
    | cons hd tl ih =>
      simp only [markConversationAsRead, List.map_cons] at ih ⊢
      simp [bulkReadOne_twice, ih]

/-- C6 witness: first read stamps readAt, second read is a no-op, at a
concrete sent message. -/
theorem C6_mark_read_idempotent_witness :
    msgSent.status ≠ MsgStatus.read ∧
    (markAsRead msgSent 3).status = MsgStatus.read ∧
    (markAsRead msgSent 3).readAt = some 3 ∧
    markAsRead (markAsRead msgSent 3) 7 = markAsRead msgSent 3 :=
  ⟨by decide,
    ((C6_mark_read_idempotent [] msgSent "c1" "bob" 3 7).1 (by decide)).1,
    ((C6_mark_read_idempotent [] msgSent "c1" "bob" 3 7).1 (by decide)).2,
    (C6_mark_read_idempotent [] msgSent "c1" "bob" 3 7).2.1⟩

/-- Unread count as the words of the spec put it: the number of messages
whose receiver is the user, whose status is not read, and that are not
soft-deleted. -/
def specUnreadCount (msgs : List Message) (userId : String) : Nat :=
  msgs.countP (fun m =>
    decide (m.receiverId = userId ∧ m.status ≠ MsgStatus.read ∧ m.isDeleted = false))

/-- C7: the countDocuments query of getUnreadCount computes exactly the
count the spec describes, for every collection and every user. -/
theorem C7_unread_count (msgs : List Message) (userId : String) :
    getUnreadCount msgs userId = specUnreadCount msgs userId := by
  unfold getUnreadCount specUnreadCount
  rw [List.countP_eq_length_filter]
  congr 1
  apply List.filter_congr
  intro m _
  by_cases h1 : m.receiverId = userId <;>
    by_cases h2 : m.status = MsgStatus.read <;>
      by_cases h3 : m.isDeleted = false <;>
        simp [h1, h2, h3]

/-- Helper: the canonical ordering of a pair does not depend on the
argument order. -/
theorem sortPair_comm (a b : String) : sortPair a b = sortPair b a := by
  unfold sortPair
  by_cases hab : a ≤ b
  · by_cases hba : b ≤ a
    · have h : a = b := le_antisymm hab hba
      subst h
      simp
    · simp [hab, hba]
  · have hba : b ≤ a := le_of_not_le hab
    simp [hab, hba]

/-- Helper: the document built by the create call is already canonically
ordered, so the conversation pre-save hook leaves it unchanged. -/
theorem conversationPreSave_mkConversation (a b creator : String) :
    conversationPreSave (mkConversation (sortPair a b) creator) =
      mkConversation (sortPair a b) creator := by
  unfold conversationPreSave mkConversation sortPair
  by_cases hab : a ≤ b
  · simp [hab]
  · have hba : b ≤ a := le_of_not_le hab
    simp [hab, hba]

/-- Helper: a findOne that misses on a prefix of the collection continues
on the rest. -/
theorem findOneConversation_append (s1 s2 : List Conversation) (ps : List String)
    (h : findOneConversation s1 ps = none) :
    findOneConversation (s1 ++ s2) ps = findOneConversation s2 ps := by
  unfold findOneConversation at h ⊢
  simp [List.find?_append, h]

/-- Helper: every element of a list is contained in that list. -/
theorem all_contains_self (l : List String) :
    (l.all fun p => l.contains p) = true := by
  simp only [List.all_eq_true]
  intro x hx
  exact List.elem_iff.mpr hx

/-- C4: the canonical pair is the same in either argument order, so the
lookup of findOrCreateConversation is commutative; a conversation created
by the call stores its two participant ids in canonical lexicographic
order; and calling findOrCreateConversation again with the pair swapped
returns exactly the conversation of the first call and leaves the
collection unchanged, so no second conversation is ever created for the
pair. -/
theorem C4_resolve_canonical (s : List Conversation) (a b : String) :
    sortPair a b = sortPair b a ∧
    findOneConversation s (sortPair a b) = findOneConversation s (sortPair b a) ∧
    (findOneConversation s (sortPair a b) = none →
      (findOrCreateConversation s a b).1.participants = sortPair a b) ∧
    findOrCreateConversation (findOrCreateConversation s a b).2 b a =
      ((findOrCreateConversation s a b).1, (findOrCreateConversation s a b).2) := by
  refine ⟨sortPair_comm a b, by rw [sortPair_comm], ?_, ?_⟩
  · intro h
    simp only [findOrCreateConversation, h]
    rw [conversationPreSave_mkConversation]
    rfl
  · cases hf : findOneConversation s (sortPair a b) with
    | some c =>
      simp [findOrCreateConversation, hf, sortPair_comm b a]
    | none =>
      have hps : sortPair b a = sortPair a b := sortPair_comm b a
      have hmk : conversationPreSave (mkConversation (sortPair a b) a) =
          mkConversation (sortPair a b) a :=
        conversationPreSave_mkConversation a b a
      have hmatch : matchesPair (sortPair a b) (mkConversation (sortPair a b) a) = true := by
        simp [matchesPair, mkConversation, all_contains_self]
      have hfind : findOneConversation
          (s ++ [mkConversation (sortPair a b) a]) (sortPair a b) =
          some (mkConversation (sortPair a b) a) := by
        rw [findOneConversation_append s _ _ hf]
        simp [findOneConversation, List.find?_cons_of_pos, hmatch]
      simp [findOrCreateConversation, hf, hmk, hps, hfind]

/-- C4 witness: on an empty collection the created conversation stores
the canonically ordered pair. -/
theorem C4_resolve_canonical_witness :
    findOneConversation [] (sortPair "b" "a") = none ∧
    (findOrCreateConversation [] "b" "a").1.participants = sortPair "b" "a" :=
  ⟨rfl, (C4_resolve_canonical [] "b" "a").2.2.1 rfl⟩

theorem ba_not_le : ¬ ("b" : String) ≤ "a" := by
  rw [String.le_iff_toList_le]
  decide

theorem sortPair_ba : sortPair "b" "a" = ["a", "b"] := by
  unfold sortPair
  rw [if_neg ba_not_le]

/-- C5: evaluation of the resolver under a duplicate-creation race at a
concrete input: the findOne snapshot is empty, a concurrent insert of
the conversation for the pair lands before the create, the unique index
rejects the create, and the resolver surfaces the ConflictError to its
caller instead of retrying as a lookup. -/
theorem C5_conflict_surfaced :
    findOrCreateConversationRacy [] [convAB] "b" "a" =
      Except.error ResolveError.ConflictError := by
  simp [findOrCreateConversationRacy, sortPair_ba, findOneConversation,
    createUnique, convAB, mkConversation]

/-- C5 amended: whenever the lookup snapshot misses and the create-time
snapshot already holds a document with the same canonical participants
array, findOrCreateConversation rethrows the ConflictError of the unique
index to its caller; there is no internal retry as a lookup. -/
theorem C5_conflict_rethrown (sf sc : List Conversation) (a b : String)
    (h1 : findOneConversation sf (sortPair a b) = none)
    (h2 : (sc.any fun c => c.participants == sortPair a b) = true) :
    findOrCreateConversationRacy sf sc a b =
      Except.error ResolveError.ConflictError := by
  simp [findOrCreateConversationRacy, h1, createUnique, h2]

/-- C5 witness: the amended statement at the concrete race above. -/
theorem C5_conflict_rethrown_witness :
    findOneConversation [] (sortPair "b" "a") = none ∧
    ([convAB].any fun c => c.participants == sortPair "b" "a") = true ∧
    findOrCreateConversationRacy [] [convAB] "b" "a" =
      Except.error ResolveError.ConflictError :=
  ⟨rfl, by simp [convAB, mkConversation, sortPair_ba],
    C5_conflict_rethrown [] [convAB] "b" "a" rfl
      (by simp [convAB, mkConversation, sortPair_ba])⟩

/-- C3: evaluation of the socket handler at a concrete input: the user
registers session s1, registers session s2, then one of the sessions
disconnects; the disconnect handler deletes the user from the map
outright, so the user is offline although another session was
registered, contradicting the claim that the user stays online. -/
theorem C3_single_handle_counterexample :
    isOnlineUser (onDisconnect
      (onConnect (onConnect (SocketState.mk [] []) "u" "s1" 0) "u" "s2" 1)
      "u" 2) "u" = false ∧
    (onDisconnect
      (onConnect (onConnect (SocketState.mk [] []) "u" "s1" 0) "u" "s2" 1)
      "u" 2).activeUsers = [] := by
  refine ⟨rfl, rfl⟩

/-- C3 amended: the registry keeps at most one session handle per user;
a second registration for the same user overwrites the first, and a
disconnect of any connection of the user deletes the whole map entry
and broadcasts offline with lastSeen stamped — so registering two
session handles and then unregistering one leaves the user offline, and
the offline broadcast carries the lastSeen stamp. -/
theorem C3_presence_overwrite_delete (u s1 s2 : String) (t0 t1 t2 : Nat)
    (h : u ≠ "") :
    mapGet (onConnect (SocketState.mk [] []) u s1 t0).activeUsers u = some s1 ∧
    mapGet (onConnect (onConnect (SocketState.mk [] []) u s1 t0) u s2 t1).activeUsers u
      = some s2 ∧
    isOnlineUser (onDisconnect
      (onConnect (onConnect (SocketState.mk [] []) u s1 t0) u s2 t1) u t2) u = false ∧
    (onDisconnect
      (onConnect (onConnect (SocketState.mk [] []) u s1 t0) u s2 t1) u t2).events =
      [PresenceEvent.online u t0, PresenceEvent.online u t1,
        PresenceEvent.offline u t2] := by
  simp [onConnect, onDisconnect, mapSet, mapGet, mapDelete, isOnlineUser, h]

/-- C3 witness: the amended statement at concrete session handles. -/
theorem C3_presence_overwrite_delete_witness :
    ("u" : String) ≠ "" ∧
    isOnlineUser (onDisconnect
      (onConnect (onConnect (SocketState.mk [] []) "u" "s1" 0) "u" "s2" 1)
      "u" 2) "u" = false :=
  ⟨by decide, (C3_presence_overwrite_delete "u" "s1" "s2" 0 1 2 (by decide)).2.2.1⟩

/-- Helper: the conversation pre-save hook never touches mutedBy. -/
theorem conversationPreSave_mutedBy (c : Conversation) :
    (conversationPreSave c).mutedBy = c.mutedBy := by
  unfold conversationPreSave
  split <;> rfl

/-- Helper: the conversation pre-save hook never touches archivedBy. -/
theorem conversationPreSave_archivedBy (c : Conversation) :
    (conversationPreSave c).archivedBy = c.archivedBy := by
  unfold conversationPreSave
  split <;> rfl

/-- C9: toggleMute and toggleArchive flip the membership of the user in
mutedBy respectively archivedBy — removing the single stored occurrence
when present, appending the user when absent — and the request-level
operations return the new boolean membership state of the updated
document. Stated for documents whose muted and archived lists hold no
duplicates, which is every state these set operations produce. -/
theorem C9_toggle_flip (c : Conversation) (u : String)
    (hm : c.mutedBy.Nodup) (ha : c.archivedBy.Nodup) :
    (u ∈ c.mutedBy → (toggleMuteOp c u).1.mutedBy = c.mutedBy.erase u) ∧
    (u ∉ c.mutedBy → (toggleMuteOp c u).1.mutedBy = c.mutedBy ++ [u]) ∧
    (u ∈ (toggleMuteOp c u).1.mutedBy ↔ u ∉ c.mutedBy) ∧
    ((toggleMuteOp c u).2 = true ↔ u ∈ (toggleMuteOp c u).1.mutedBy) ∧
    (u ∈ c.archivedBy → (toggleArchiveOp c u).1.archivedBy = c.archivedBy.erase u) ∧
    (u ∉ c.archivedBy → (toggleArchiveOp c u).1.archivedBy = c.archivedBy ++ [u]) ∧
    (u ∈ (toggleArchiveOp c u).1.archivedBy ↔ u ∉ c.archivedBy) ∧
    ((toggleArchiveOp c u).2 = true ↔ u ∈ (toggleArchiveOp c u).1.archivedBy) := by
  by_cases h1 : u ∈ c.mutedBy <;> by_cases h2 : u ∈ c.archivedBy <;>
    simp [toggleMuteOp, toggleMute, toggleArchiveOp, toggleArchive,
      conversationPreSave_mutedBy, conversationPreSave_archivedBy,
      isMutedFor, isArchivedFor, h1, h2, List.Nodup.mem_erase_iff, hm, ha]

/-- C9 witness: flipping an already muted user out at a concrete
conversation. -/
theorem C9_toggle_flip_witness :
    (["z"] : List String).Nodup ∧ ([] : List String).Nodup ∧
    ("z" ∈ (toggleMuteOp { convAB with mutedBy := ["z"] } "z").1.mutedBy ↔
      "z" ∉ ({ convAB with mutedBy := ["z"] } : Conversation).mutedBy) :=
  ⟨by decide, by decide,
    (C9_toggle_flip { convAB with mutedBy := ["z"] } "z"
      (by decide) (by decide)).2.2.1⟩

end Chat
